import Mathlib

/-!
Verification of the rts_assignment urban traffic simulation.

The Rust sources are shallowly embedded: `f64` quantities are modelled as `ℚ`,
unsigned machine integers as `Nat`, signed ones as `Int`, `HashMap`s as
association lists whose key column is assumed duplicate-free where a claim
needs it, and `Option`/`bool` return values literally.  Stateful methods that
mutate `&mut self` become pure functions returning the updated state (paired
with the returned value when the source returns one).
-/

set_option maxHeartbeats 1000000

namespace Rts

/-- Identifier of an intersection: a `(row, col)` pair of signed integers
(`pub struct IntersectionId(pub i8, pub i8)`, identical in
`c1_tp063879/intersections.rs` and `simulation_engine/intersections.rs`). -/
structure IntersectionId where
  row : Int
  col : Int
deriving DecidableEq

namespace SimEngine

/-- Vehicle types (`simulation_engine/vehicles.rs` and `c1_tp063879/vehicles.rs`,
identical enum). -/
inductive VehicleType where
  | Car
  | Bus
  | Truck
  | EmergencyVan
deriving DecidableEq

/-- The fields of `Vehicle` that `simulation_engine/lanes.rs` reads: `id`,
`length` and the emergency discriminator.  The remaining fields
(entry/exit point, speed, priority, ...) are never consulted by the lane
operations and are omitted from this embedding. -/
structure Vehicle where
  id : Nat
  vehicle_type : VehicleType
  length : ℚ
deriving DecidableEq

/-- `vehicle.is_emergency()`: true exactly for `EmergencyVan`
(`c1_tp063879/vehicles.rs` defines it as `vehicle_type == EmergencyVan`;
the `simulation_engine` variant stores the same truth value in a field set
by its constructor). -/
def Vehicle.is_emergency (v : Vehicle) : Bool :=
  v.vehicle_type == VehicleType.EmergencyVan

/-- `Lane` from `simulation_engine/lanes.rs`. -/
structure Lane where
  name : String
  from_ : IntersectionId
  to_ : IntersectionId
  length_meters : ℚ
  current_vehicle_length : ℚ
  has_emergency_vehicle : Bool
  has_accident : Bool
  waiting_time : ℚ
  vehicle_queue : List Vehicle
deriving DecidableEq

/-- `Lane::new`. -/
def Lane.new (name : String) (f t : IntersectionId) (length_meters : ℚ) : Lane :=
  { name := name
    from_ := f
    to_ := t
    length_meters := length_meters
    current_vehicle_length := 0
    has_emergency_vehicle := false
    has_accident := false
    waiting_time := 0
    vehicle_queue := [] }

/-- `Lane::can_add_vehicle`: blocked if an emergency vehicle is present,
otherwise requires `current_vehicle_length + vehicle.length <= length_meters`. -/
def Lane.can_add_vehicle (lane : Lane) (v : Vehicle) : Bool :=
  if lane.has_emergency_vehicle then false
  else decide (lane.current_vehicle_length + v.length ≤ lane.length_meters)

/-- `Lane::add_vehicle`.  Returns the `bool` result of the source together with
the updated lane (the source mutates `&mut self`). -/
def Lane.add_vehicle (lane : Lane) (v : Vehicle) : Bool × Lane :=
  if v.is_emergency then
    (true, { lane with has_emergency_vehicle := true,
                       vehicle_queue := lane.vehicle_queue ++ [v] })
  else if lane.can_add_vehicle v then
    (true, { lane with current_vehicle_length := lane.current_vehicle_length + v.length,
                       vehicle_queue := lane.vehicle_queue ++ [v] })
  else
    (false, lane)

/-- `Lane::remove_vehicle`: locate the vehicle by id in the queue; if found,
remove it, and either decrement the occupied length (non-emergency, guarded by
`current_vehicle_length >= vehicle.length`) or clear the emergency flag. -/
def Lane.remove_vehicle (lane : Lane) (v : Vehicle) : Lane :=
  match lane.vehicle_queue.findIdx? (fun w => w.id == v.id) with
  | some pos =>
      let q := lane.vehicle_queue.eraseIdx pos
      if !v.is_emergency then
        if v.length ≤ lane.current_vehicle_length then
          { lane with vehicle_queue := q,
                      current_vehicle_length := lane.current_vehicle_length - v.length }
        else
          { lane with vehicle_queue := q }
      else
        { lane with vehicle_queue := q, has_emergency_vehicle := false }
  | none => lane

/-- A lane operation: an `add_vehicle` or a `remove_vehicle` call. -/
inductive LaneOp where
  | add (v : Vehicle)
  | remove (v : Vehicle)
deriving DecidableEq

/-- The vehicle an operation is about. -/
def LaneOp.vehicle : LaneOp → Vehicle
  | .add v => v
  | .remove v => v

/-- Apply one operation to a lane (discarding `add_vehicle`'s boolean result). -/
def applyOp (lane : Lane) : LaneOp → Lane
  | .add v => (lane.add_vehicle v).2
  | .remove v => lane.remove_vehicle v

/-- Apply a sequence of operations, oldest first. -/
def applyOps (lane : Lane) (ops : List LaneOp) : Lane :=
  ops.foldl applyOp lane

/-- Occupancy invariant of a lane. -/
def occInv (lane : Lane) : Prop :=
  0 ≤ lane.current_vehicle_length ∧ lane.current_vehicle_length ≤ lane.length_meters

theorem applyOp_length_meters (lane : Lane) (op : LaneOp) :
    (applyOp lane op).length_meters = lane.length_meters := by
  cases op with
  | add v =>
      simp only [applyOp, Lane.add_vehicle]
      split
      · rfl
      · split <;> rfl
  | remove v =>
      simp only [applyOp, Lane.remove_vehicle]
      split
      · split
        · split <;> rfl
        · rfl
      · rfl

theorem applyOp_occInv (lane : Lane) (op : LaneOp)
    (hinv : occInv lane) (hv : 0 < op.vehicle.length) : occInv (applyOp lane op) := by
  obtain ⟨h0, h1⟩ := hinv
  cases op with
  | add v =>
      simp only [LaneOp.vehicle] at hv
      simp only [applyOp, Lane.add_vehicle]
      split
      · exact ⟨h0, h1⟩
      · rename_i hem
        split
        · rename_i hcan
          simp only [Lane.can_add_vehicle] at hcan
          constructor
          · have : (0:ℚ) ≤ v.length := le_of_lt hv
            simpa using add_nonneg h0 this
          · split at hcan
            · simp at hcan
            · simpa using of_decide_eq_true hcan
        · exact ⟨h0, h1⟩
  | remove v =>
      simp only [LaneOp.vehicle] at hv
      simp only [applyOp, Lane.remove_vehicle]
      split
      · split
        · split
          · rename_i hge
            constructor
            · simpa using sub_nonneg.mpr hge
            · simp only
              calc lane.current_vehicle_length - v.length
                  ≤ lane.current_vehicle_length := by linarith
                _ ≤ lane.length_meters := h1
          · exact ⟨h0, h1⟩
        · exact ⟨h0, h1⟩
      · exact ⟨h0, h1⟩

theorem applyOps_occInv (ops : List LaneOp) (lane : Lane)
    (hinv : occInv lane) (hv : ∀ op ∈ ops, 0 < op.vehicle.length) :
    occInv (applyOps lane ops) := by
  induction ops generalizing lane with
  | nil => simpa [applyOps] using hinv
  | cons op rest ih =>
      have h1 : occInv (applyOp lane op) :=
        applyOp_occInv lane op hinv (hv op (by simp))
      have h2 : ∀ o ∈ rest, 0 < o.vehicle.length := fun o ho => hv o (by simp [ho])
      simpa [applyOps] using ih (applyOp lane op) h1 h2

theorem applyOps_length_meters (ops : List LaneOp) (lane : Lane) :
    (applyOps lane ops).length_meters = lane.length_meters := by
  induction ops generalizing lane with
  | nil => simp [applyOps]
  | cons op rest ih =>
      simp only [applyOps, List.foldl_cons] at *
      rw [ih (applyOp lane op), applyOp_length_meters]

theorem findIdx?_some_exists {α : Type} (p : α → Bool) :
    ∀ (l : List α) (s i : Nat), List.findIdx? p l s = some i → ∃ x ∈ l, p x = true := by
  intro l
  induction l with
  | nil => intro s i h; simp [List.findIdx?] at h
  | cons a rest ih =>
      intro s i h
      rw [List.findIdx?_cons] at h
      by_cases ha : p a
      · exact ⟨a, by simp, ha⟩
      · simp only [ha, Bool.false_eq_true, if_false] at h
        rcases ih (s + 1) i h with ⟨x, hx, hpx⟩
        exact ⟨x, by simp [hx], hpx⟩

/-- A demonstration vehicle: a `Car` of length 2 (the `c1_tp063879` length table). -/
def car : Vehicle := ⟨1, VehicleType.Car, 2⟩

/-- A demonstration vehicle: an `EmergencyVan` of length 3. -/
def van : Vehicle := ⟨99, VehicleType.EmergencyVan, 3⟩

/-- The lane `"(0,0) -> (0,1)"` of `create_lanes` (300 m), at exactly full
occupancy (`current_vehicle_length = length_meters = 300`). -/
def fullLane : Lane :=
  { Lane.new "(0,0) -> (0,1)" ⟨0, 0⟩ ⟨0, 1⟩ 300 with current_vehicle_length := 300 }

/-- C1, counterexample: `add_vehicle` admits an `EmergencyVan` into a lane that
is at exactly full occupancy and has no emergency-vehicle block, even though
`current_vehicle_length + vehicle.length ≤ lane.length` fails — so admission is
not equivalent to that condition, and a lane at exactly full occupancy does not
reject every further admission. -/
theorem C1_counterexample_emergency_bypass :
    (fullLane.add_vehicle van).1 = true ∧
      fullLane.has_emergency_vehicle = false ∧
      ¬ (fullLane.current_vehicle_length + van.length ≤ fullLane.length_meters) ∧
      fullLane.current_vehicle_length = fullLane.length_meters := by
  refine ⟨rfl, rfl, ?_, rfl⟩
  intro h
  have : ¬ ((300 : ℚ) + 3 ≤ 300) := by norm_num
  exact this (by simpa [fullLane, van, Lane.new] using h)

/-- C1 (amended): for every lane and every non-emergency vehicle, `add_vehicle`
succeeds iff the lane has no emergency-vehicle block and
`current_vehicle_length + vehicle.length ≤ lane.length`; in particular a lane
at exactly full occupancy rejects every further non-emergency admission of a
vehicle of positive length.  (Emergency vehicles bypass the check entirely —
see the counterexample and C10.) -/
theorem C1_admission_amended (lane : Lane) (v : Vehicle) (hv : v.is_emergency = false) :
    ((lane.add_vehicle v).1 = true ↔
      (lane.has_emergency_vehicle = false ∧
        lane.current_vehicle_length + v.length ≤ lane.length_meters)) ∧
    (lane.current_vehicle_length = lane.length_meters → 0 < v.length →
      (lane.add_vehicle v).1 = false) := by
  have hmain : (lane.add_vehicle v).1 = true ↔
      (lane.has_emergency_vehicle = false ∧
        lane.current_vehicle_length + v.length ≤ lane.length_meters) := by
    simp only [Lane.add_vehicle, Lane.can_add_vehicle, hv, Bool.false_eq_true, if_false]
    by_cases hem : lane.has_emergency_vehicle = true
    · simp [hem]
    · rw [Bool.not_eq_true] at hem
      by_cases hle : lane.current_vehicle_length + v.length ≤ lane.length_meters
      · simp [hem, hle]
      · simp [hem, hle]
  refine ⟨hmain, fun hfull hpos => ?_⟩
  have hnot : ¬ (lane.current_vehicle_length + v.length ≤ lane.length_meters) := by
    rw [hfull]; intro h; linarith
  cases hb : (lane.add_vehicle v).1 with
  | false => rfl
  | true => exact absurd (hmain.mp hb).2 hnot

/-- C1, witness for the amended theorem at a concrete input: an empty 300 m
lane and a `Car` of length 2. -/
theorem C1_admission_amended_witness :
    (((Lane.new "(0,0) -> (0,1)" ⟨0, 0⟩ ⟨0, 1⟩ 300).add_vehicle car).1 = true ↔
      ((Lane.new "(0,0) -> (0,1)" ⟨0, 0⟩ ⟨0, 1⟩ 300).has_emergency_vehicle = false ∧
        (Lane.new "(0,0) -> (0,1)" ⟨0, 0⟩ ⟨0, 1⟩ 300).current_vehicle_length + car.length ≤
          (Lane.new "(0,0) -> (0,1)" ⟨0, 0⟩ ⟨0, 1⟩ 300).length_meters)) ∧
    ((Lane.new "(0,0) -> (0,1)" ⟨0, 0⟩ ⟨0, 1⟩ 300).current_vehicle_length =
        (Lane.new "(0,0) -> (0,1)" ⟨0, 0⟩ ⟨0, 1⟩ 300).length_meters → 0 < car.length →
      ((Lane.new "(0,0) -> (0,1)" ⟨0, 0⟩ ⟨0, 1⟩ 300).add_vehicle car).1 = false) :=
  C1_admission_amended (Lane.new "(0,0) -> (0,1)" ⟨0, 0⟩ ⟨0, 1⟩ 300) car rfl

/-- C2: starting from a freshly constructed lane (`Lane::new`, occupancy 0)
with nonnegative length, after any sequence of `add_vehicle` / `remove_vehicle`
operations whose vehicles all have positive length, the invariant
`0 ≤ current_vehicle_length ≤ length_meters` holds (and the lane's length is
unchanged).  Quantifying over all operation sequences covers the state after
every prefix, i.e. after every single operation. -/
theorem C2_occupancy_invariant (name : String) (f t : IntersectionId) (len : ℚ)
    (hlen : 0 ≤ len) (ops : List LaneOp)
    (hv : ∀ op ∈ ops, 0 < op.vehicle.length) :
    0 ≤ (applyOps (Lane.new name f t len) ops).current_vehicle_length ∧
      (applyOps (Lane.new name f t len) ops).current_vehicle_length ≤
        (applyOps (Lane.new name f t len) ops).length_meters ∧
      (applyOps (Lane.new name f t len) ops).length_meters = len := by
  have h0 : occInv (Lane.new name f t len) := by
    constructor
    · simp [Lane.new]
    · simpa [Lane.new] using hlen
  have h := applyOps_occInv ops (Lane.new name f t len) h0 hv
  exact ⟨h.1, h.2, by simpa [Lane.new] using applyOps_length_meters ops (Lane.new name f t len)⟩

/-- The operation sequence used to witness C2: admit a car and a truck,
remove the car, admit a bus. -/
def c2Ops : List LaneOp :=
  [LaneOp.add ⟨1, VehicleType.Car, 2⟩, LaneOp.add ⟨2, VehicleType.Truck, 4⟩,
   LaneOp.remove ⟨1, VehicleType.Car, 2⟩, LaneOp.add ⟨3, VehicleType.Bus, 6⟩]

/-- C2, witness at a concrete input: the 300 m lane `"(0,0) -> (0,1)"` under
`c2Ops`. -/
theorem C2_occupancy_invariant_witness :
    0 ≤ (applyOps (Lane.new "(0,0) -> (0,1)" ⟨0, 0⟩ ⟨0, 1⟩ 300) c2Ops).current_vehicle_length ∧
      (applyOps (Lane.new "(0,0) -> (0,1)" ⟨0, 0⟩ ⟨0, 1⟩ 300) c2Ops).current_vehicle_length ≤
        (applyOps (Lane.new "(0,0) -> (0,1)" ⟨0, 0⟩ ⟨0, 1⟩ 300) c2Ops).length_meters ∧
      (applyOps (Lane.new "(0,0) -> (0,1)" ⟨0, 0⟩ ⟨0, 1⟩ 300) c2Ops).length_meters = 300 :=
  C2_occupancy_invariant "(0,0) -> (0,1)" ⟨0, 0⟩ ⟨0, 1⟩ 300 (by norm_num) c2Ops (by decide)

/-- C10: admitting an emergency vehicle always succeeds, leaves
`current_vehicle_length` unchanged, and sets the `has_emergency_vehicle` flag;
while the flag is set every non-emergency admission fails and leaves the lane
unchanged; no `add_vehicle` call ever clears the flag, and `remove_vehicle`
clears it only when the removed vehicle is an emergency vehicle whose id is
present in the queue. -/
theorem C10_emergency_vehicle_handling (lane : Lane) (v w : Vehicle)
    (hv : v.is_emergency = true) :
    ((lane.add_vehicle v).1 = true ∧
      (lane.add_vehicle v).2.current_vehicle_length = lane.current_vehicle_length ∧
      (lane.add_vehicle v).2.has_emergency_vehicle = true) ∧
    (lane.has_emergency_vehicle = true → w.is_emergency = false →
      (lane.add_vehicle w).1 = false ∧ (lane.add_vehicle w).2 = lane) ∧
    (lane.has_emergency_vehicle = true →
      (lane.add_vehicle w).2.has_emergency_vehicle = true) ∧
    (lane.has_emergency_vehicle = true →
      (lane.remove_vehicle w).has_emergency_vehicle = false →
      w.is_emergency = true ∧ ∃ x ∈ lane.vehicle_queue, x.id = w.id) := by
  refine ⟨?_, ?_, ?_, ?_⟩
  · simp [Lane.add_vehicle, hv]
  · intro hem hw
    simp [Lane.add_vehicle, Lane.can_add_vehicle, hw, hem]
  · intro hem
    simp only [Lane.add_vehicle]
    split
    · rfl
    · split
      · exact hem
      · exact hem
  · intro hem hcleared
    simp only [Lane.remove_vehicle] at hcleared
    rcases hfind : lane.vehicle_queue.findIdx? (fun x => x.id == w.id) with _ | pos
    · rw [hfind] at hcleared
      simp only at hcleared
      exact absurd hem (by rw [hcleared]; simp)
    · rw [hfind] at hcleared
      simp only at hcleared
      by_cases hwem : w.is_emergency
      · refine ⟨hwem, ?_⟩
        rcases findIdx?_some_exists _ lane.vehicle_queue 0 pos hfind with ⟨x, hx, hpx⟩
        exact ⟨x, hx, by simpa using hpx⟩
      · rw [Bool.not_eq_true] at hwem
        simp only [hwem, Bool.not_false, if_pos] at hcleared
        split at hcleared
        · exact absurd hem (by rw [hcleared]; simp)
        · exact absurd hem (by rw [hcleared]; simp)

/-- The lane used to witness C10: the 300 m lane with an emergency van already
queued and the flag set. -/
def emLane : Lane :=
  { Lane.new "(0,0) -> (0,1)" ⟨0, 0⟩ ⟨0, 1⟩ 300 with
      has_emergency_vehicle := true, vehicle_queue := [van] }

/-- C10, witness at a concrete input: the blocked lane `emLane`, the van and a
car. -/
theorem C10_emergency_vehicle_handling_witness :
    ((emLane.add_vehicle van).1 = true ∧
      (emLane.add_vehicle van).2.current_vehicle_length = emLane.current_vehicle_length ∧
      (emLane.add_vehicle van).2.has_emergency_vehicle = true) ∧
    (emLane.has_emergency_vehicle = true → car.is_emergency = false →
      (emLane.add_vehicle car).1 = false ∧ (emLane.add_vehicle car).2 = emLane) ∧
    (emLane.has_emergency_vehicle = true →
      (emLane.add_vehicle car).2.has_emergency_vehicle = true) ∧
    (emLane.has_emergency_vehicle = true →
      (emLane.remove_vehicle car).has_emergency_vehicle = false →
      car.is_emergency = true ∧ ∃ x ∈ emLane.vehicle_queue, x.id = car.id) :=
  C10_emergency_vehicle_handling emLane van car rfl

end SimEngine

namespace C1Sim

/-- `Vehicle` from `c1_tp063879/vehicles.rs` (the vehicle-type enum is the one
shared with `simulation_engine`, embedded once above). -/
structure Vehicle where
  id : Nat
  vehicle_type : SimEngine.VehicleType
  entry_point : IntersectionId
  exit_point : IntersectionId
  speed : ℚ
  length : ℚ
  is_in_lane : Bool
  is_accident : Bool
  severity : Int
  accident_timestamp : Option Nat
  waiting_time : Nat
  waiting_start : Option Nat
deriving DecidableEq

/-- `Vehicle::new` (c1_tp063879/vehicles.rs): length by type
(Car 2.0, Bus 6.0, Truck 4.0, EmergencyVan 3.0), all flags cleared,
`severity = 0`, `accident_timestamp = None`. -/
def Vehicle.new (id : Nat) (vt : SimEngine.VehicleType)
    (entry_point exit_point : IntersectionId) (speed : ℚ) : Vehicle :=
  let length : ℚ :=
    match vt with
    | .Car => 2
    | .Bus => 6
    | .Truck => 4
    | .EmergencyVan => 3
  { id := id
    vehicle_type := vt
    entry_point := entry_point
    exit_point := exit_point
    speed := speed
    length := length
    is_in_lane := false
    is_accident := false
    severity := 0
    accident_timestamp := none
    waiting_time := 0
    waiting_start := none }

/-- The crash branch of `simulate_vehicle_journey`
(c1_tp063879/simulation.rs, the `rng.random_bool(accident_probability)` arm):
it assigns `vehicle.accident_timestamp = Some(crashed_timestamp)` and
`vehicle.severity = crash_severity` with `crash_severity` drawn from `1..=3`,
and writes no other vehicle field before the vehicle is removed — in
particular it never sets `is_accident`. -/
def crash_step (v : Vehicle) (crashed_timestamp : Nat) (crash_severity : Int) : Vehicle :=
  { v with accident_timestamp := some crashed_timestamp, severity := crash_severity }

/-- C3 (code bug evidence): at creation the claimed equivalence
`is_accident ⇔ severity ∈ [1,5] ∧ accident_timestamp ≠ null` holds, but after
the crash branch (severity 2, timestamp 1000 — any value from `1..=3` behaves
the same) the right-hand side is true while `is_accident` is still `false`, so
the equivalence fails on a reachable state of the vehicle lifecycle. -/
theorem C3_crash_leaves_is_accident_false :
    (((Vehicle.new 1 SimEngine.VehicleType.Car ⟨0, 0⟩ ⟨0, 3⟩ 100).is_accident = true) ↔
      ((1 ≤ (Vehicle.new 1 SimEngine.VehicleType.Car ⟨0, 0⟩ ⟨0, 3⟩ 100).severity ∧
          (Vehicle.new 1 SimEngine.VehicleType.Car ⟨0, 0⟩ ⟨0, 3⟩ 100).severity ≤ 5) ∧
        (Vehicle.new 1 SimEngine.VehicleType.Car ⟨0, 0⟩ ⟨0, 3⟩ 100).accident_timestamp ≠ none)) ∧
    ((crash_step (Vehicle.new 1 SimEngine.VehicleType.Car ⟨0, 0⟩ ⟨0, 3⟩ 100) 1000 2).is_accident
        = false) ∧
    (1 ≤ (crash_step (Vehicle.new 1 SimEngine.VehicleType.Car ⟨0, 0⟩ ⟨0, 3⟩ 100) 1000 2).severity ∧
      (crash_step (Vehicle.new 1 SimEngine.VehicleType.Car ⟨0, 0⟩ ⟨0, 3⟩ 100) 1000 2).severity ≤ 5) ∧
    ((crash_step (Vehicle.new 1 SimEngine.VehicleType.Car ⟨0, 0⟩ ⟨0, 3⟩ 100) 1000 2).accident_timestamp
        ≠ none) ∧
    ¬ (((crash_step (Vehicle.new 1 SimEngine.VehicleType.Car ⟨0, 0⟩ ⟨0, 3⟩ 100) 1000 2).is_accident
          = true) ↔
        ((1 ≤ (crash_step (Vehicle.new 1 SimEngine.VehicleType.Car ⟨0, 0⟩ ⟨0, 3⟩ 100) 1000 2).severity ∧
            (crash_step (Vehicle.new 1 SimEngine.VehicleType.Car ⟨0, 0⟩ ⟨0, 3⟩ 100) 1000 2).severity ≤ 5) ∧
          (crash_step (Vehicle.new 1 SimEngine.VehicleType.Car ⟨0, 0⟩ ⟨0, 3⟩ 100) 1000 2).accident_timestamp
            ≠ none)) := by
  decide

/-- The body of `simulate_rush_hour` applied to the in-cycle time
`cycle_time = elapsed % 40`: on `cycle_time ≤ 20` the count ramps
`2 + (cycle_time/20)·3`, afterwards `5 - ((cycle_time-20)/20)·3`, then
`.round() as usize`.  For the values produced (all inside `[2,5]`) Rust's
round-half-away-from-zero agrees with Mathlib's `round` (half-up), and the
`as usize` cast of the nonnegative result is `Int.toNat`. -/
def rush_spawn_of_cycle (cycle_time : Nat) : Nat :=
  let spawn_count : ℚ :=
    if cycle_time ≤ 20 then 2 + ((cycle_time : ℚ) / 20) * 3
    else 5 - (((cycle_time : ℚ) - 20) / 20) * 3
  (round spawn_count).toNat

/-- `simulate_rush_hour` (c1_tp063879/simulation.rs): `elapsed` is the u64
difference `current_time - simulation_start` (the caller always passes
`simulation_start ≤ current_time`), reduced modulo the 40 s cycle. -/
def simulate_rush_hour (simulation_start current_time : Nat) : Nat :=
  rush_spawn_of_cycle ((current_time - simulation_start) % 40)

/-- The property verified for C8, at simulation start `s` and a current time
`t ≥ s`: the schedule is 40 s-periodic, takes the values 2, 5, 2, 5 at elapsed
times 0, 20, 40, 60, rises step-by-step on the first half-cycle and falls on
the second, and stays within `[2, 5]`. -/
def C8Prop (s t : Nat) : Prop :=
  simulate_rush_hour s (t + 40) = simulate_rush_hour s t ∧
  simulate_rush_hour s s = 2 ∧
  simulate_rush_hour s (s + 20) = 5 ∧
  simulate_rush_hour s (s + 40) = 2 ∧
  simulate_rush_hour s (s + 60) = 5 ∧
  (∀ c < 20, rush_spawn_of_cycle c ≤ rush_spawn_of_cycle (c + 1)) ∧
  (∀ c < 39, 20 ≤ c → rush_spawn_of_cycle (c + 1) ≤ rush_spawn_of_cycle c) ∧
  (∀ c < 40, 2 ≤ rush_spawn_of_cycle c ∧ rush_spawn_of_cycle c ≤ 5)

/-- C8: the rush-hour spawn schedule is a 40 s triangular wave from 2 up to 5
and back, with counts 2, 5, 2, 5 at elapsed times 0, 20, 40, 60. -/
theorem C8_rush_hour_wave (s t : Nat) (h : s ≤ t) : C8Prop s t := by
  unfold C8Prop
  have h0 : rush_spawn_of_cycle 0 = 2 := by
    norm_num [rush_spawn_of_cycle, round_eq]
    omega
  have h20 : rush_spawn_of_cycle 20 = 5 := by
    norm_num [rush_spawn_of_cycle, round_eq]
    omega
  refine ⟨?_, ?_, ?_, ?_, ?_, ?_, ?_, ?_⟩
  · have e : (t + 40 - s) % 40 = (t - s) % 40 := by omega
    simp [simulate_rush_hour, e]
  · have e : (s - s) % 40 = 0 := by omega
    simp only [simulate_rush_hour, e, h0]
  · have e : (s + 20 - s) % 40 = 20 := by omega
    simp only [simulate_rush_hour, e, h20]
  · have e : (s + 40 - s) % 40 = 0 := by omega
    simp only [simulate_rush_hour, e, h0]
  · have e : (s + 60 - s) % 40 = 20 := by omega
    simp only [simulate_rush_hour, e, h20]
  · intro c hc
    interval_cases c <;> norm_num [rush_spawn_of_cycle, round_eq]
  · intro c hc hc20
    interval_cases c <;> norm_num [rush_spawn_of_cycle, round_eq]
  · intro c hc
    interval_cases c <;> norm_num [rush_spawn_of_cycle, round_eq]

/-- C8, witness at the concrete input `s = 0`, `t = 0`. -/
theorem C8_rush_hour_wave_witness : C8Prop 0 0 :=
  C8_rush_hour_wave 0 0 (Nat.le_refl 0)

end C1Sim

namespace Ctrl

/-- `IntersectionControl` (c1_tp063879/intersections.rs). -/
inductive IntersectionControl where
  | Normal
  | TrafficLight
deriving DecidableEq

/-- `Intersection` (c1_tp063879/intersections.rs). -/
structure Intersection where
  id : IntersectionId
  name : String
  is_entry : Bool
  is_exit : Bool
  control : IntersectionControl
  waiting_time : ℚ
deriving DecidableEq

/-- `TrafficLightPhase` (c3_tp063987/traffic_light_controller.rs): the lane
names that are green, and a duration in seconds. -/
structure TrafficLightPhase where
  green_lanes : List String
  duration : Nat
deriving DecidableEq

/-- `IntersectionController` (c3_tp063987/traffic_light_controller.rs). -/
structure IntersectionController where
  intersection : Intersection
  phases : List TrafficLightPhase
  current_phase_index : Nat
  elapsed_in_phase : Nat
  all_lanes : List String
  emergency_override : Option (List String)
deriving DecidableEq

/-- The phase at the current index, `self.phases[self.current_phase_index]`.
Rust indexing panics out of bounds; every theorem touching it carries the
in-bounds invariant, under which the default is never reached. -/
def IntersectionController.current_phase (c : IntersectionController) : TrafficLightPhase :=
  c.phases.getD c.current_phase_index ⟨[], 0⟩

/-- `IntersectionController::update`: a no-op while an emergency override is
installed; otherwise increment `elapsed_in_phase` and, when it has reached the
current phase's duration (`>=` in the source), reset it to zero and advance
the phase index modulo the phase count.  (`apply_current_phase` only prints;
it changes no state.) -/
def IntersectionController.update (c : IntersectionController) : IntersectionController :=
  if c.emergency_override.isSome then c
  else if c.current_phase.duration ≤ c.elapsed_in_phase + 1 then
    { c with elapsed_in_phase := 0,
             current_phase_index := (c.current_phase_index + 1) % c.phases.length }
  else
    { c with elapsed_in_phase := c.elapsed_in_phase + 1 }

/-- `TrafficLightController`: the per-intersection controller map
(`HashMap<IntersectionId, IntersectionController>`, embedded as an
association list). -/
structure TrafficLightController where
  controllers : List (IntersectionId × IntersectionController)

/-- `TrafficLightController::is_lane_green`: unmanaged intersections default
to green; under an emergency override the answer is membership in the
override set; otherwise membership in the current phase's green set. -/
def TrafficLightController.is_lane_green (tc : TrafficLightController)
    (intersection_id : IntersectionId) (lane_name : String) : Bool :=
  match tc.controllers.lookup intersection_id with
  | some ctrl =>
      match ctrl.emergency_override with
      | some override_lanes => override_lanes.contains lane_name
      | none => ctrl.current_phase.green_lanes.contains lane_name
  | none => true

/-- C4: `is_lane_green` returns true when the intersection has no controller;
under an installed emergency override it returns membership of the lane in the
override set; otherwise membership in the current phase's green-lane set. -/
theorem C4_is_lane_green (tc : TrafficLightController) (iid : IntersectionId)
    (lane : String) :
    (tc.controllers.lookup iid = none → tc.is_lane_green iid lane = true) ∧
    (∀ ctrl ov, tc.controllers.lookup iid = some ctrl →
      ctrl.emergency_override = some ov →
      (tc.is_lane_green iid lane = true ↔ lane ∈ ov)) ∧
    (∀ ctrl, tc.controllers.lookup iid = some ctrl →
      ctrl.emergency_override = none →
      ∀ ph, ctrl.phases.get? ctrl.current_phase_index = some ph →
        (tc.is_lane_green iid lane = true ↔ lane ∈ ph.green_lanes)) := by
  refine ⟨?_, ?_, ?_⟩
  · intro hnone
    simp [TrafficLightController.is_lane_green, hnone]
  · intro ctrl ov hsome hov
    simp [TrafficLightController.is_lane_green, hsome, hov]
  · intro ctrl hsome hov ph hph
    have hcur : ctrl.current_phase = ph := by
      have he : ctrl.phases[ctrl.current_phase_index]? = some ph := by
        rw [← List.get?_eq_getElem?]
        exact hph
      simp [IntersectionController.current_phase, List.getD, he]
    simp [TrafficLightController.is_lane_green, hsome, hov, hcur]

/-- An 8 s two-lane phase used in the concrete controller below. -/
def demoPhase : TrafficLightPhase := ⟨["(0,1) -> (0,0)", "(0,1) -> (0,2)"], 8⟩

/-- The light-controlled intersection `(0,1)` of `create_intersections`. -/
def demoIntersection : Intersection :=
  ⟨⟨0, 1⟩, "Intersection 01", false, true, IntersectionControl.TrafficLight, 0⟩

/-- A controller in normal phase cycling (no override), phase index 0. -/
def demoCtrlA : IntersectionController :=
  ⟨demoIntersection, [demoPhase, ⟨["(0,1) -> (1,1)"], 8⟩], 0, 0,
   ["(0,1) -> (0,0)", "(0,1) -> (0,2)", "(0,1) -> (1,1)"], none⟩

/-- A controller frozen by an emergency override naming one lane. -/
def demoCtrlB : IntersectionController :=
  ⟨⟨⟨1, 1⟩, "Intersection 11", false, false, IntersectionControl.TrafficLight, 0⟩,
   [⟨["(1,1) -> (1,0)", "(1,1) -> (1,2)"], 8⟩], 0, 3,
   ["(1,1) -> (1,0)", "(1,1) -> (1,2)"], some ["(1,1) -> (1,0)"]⟩

/-- A two-intersection controller map for the witnesses. -/
def demoTLC : TrafficLightController :=
  ⟨[(⟨0, 1⟩, demoCtrlA), (⟨1, 1⟩, demoCtrlB)]⟩

/-- C4, witness: the three behaviours at concrete inputs — an unmanaged
intersection, the overridden controller, and the normally cycling one. -/
theorem C4_is_lane_green_witness :
    demoTLC.is_lane_green ⟨2, 2⟩ "(2,2) -> (2,3)" = true ∧
    (demoTLC.is_lane_green ⟨1, 1⟩ "(1,1) -> (1,0)" = true ↔
      "(1,1) -> (1,0)" ∈ ["(1,1) -> (1,0)"]) ∧
    (demoTLC.is_lane_green ⟨0, 1⟩ "(0,1) -> (0,0)" = true ↔
      "(0,1) -> (0,0)" ∈ demoPhase.green_lanes) :=
  ⟨(C4_is_lane_green demoTLC ⟨2, 2⟩ "(2,2) -> (2,3)").1 (by decide),
   (C4_is_lane_green demoTLC ⟨1, 1⟩ "(1,1) -> (1,0)").2.1 demoCtrlB
     ["(1,1) -> (1,0)"] (by decide) (by decide),
   (C4_is_lane_green demoTLC ⟨0, 1⟩ "(0,1) -> (0,0)").2.2 demoCtrlA
     (by decide) (by decide) demoPhase (by decide)⟩

/-- The property verified for C5 about one `update` call on a controller `c`
satisfying the phase invariant: frozen under override, otherwise the
increment/reset behaviour, and preservation of the invariant. -/
def C5Prop (c : IntersectionController) : Prop :=
  (∀ ov, c.emergency_override = some ov → c.update = c) ∧
  (c.emergency_override = none →
    (c.elapsed_in_phase + 1 = c.current_phase.duration →
      c.update.elapsed_in_phase = 0 ∧
      c.update.current_phase_index = (c.current_phase_index + 1) % c.phases.length) ∧
    (c.elapsed_in_phase + 1 < c.current_phase.duration →
      c.update.elapsed_in_phase = c.elapsed_in_phase + 1 ∧
      c.update.current_phase_index = c.current_phase_index)) ∧
  c.update.phases = c.phases ∧
  c.update.current_phase_index < c.update.phases.length ∧
  c.update.elapsed_in_phase < c.update.current_phase.duration

/-- C5: for a controller with a non-empty phase list whose durations are all
at least 1, a valid phase index and `elapsed_in_phase` below the current
duration, `update` is frozen while an emergency override is active and
otherwise increments elapsed-in-phase, resetting to zero and advancing the
index modulo the phase count exactly when elapsed reaches the current
duration; afterwards the index is still valid and
`elapsed_in_phase < current_phase.duration`. -/
theorem C5_update_cycles (c : IntersectionController)
    (h1 : c.phases ≠ [])
    (h2 : ∀ p ∈ c.phases, 1 ≤ p.duration)
    (h3 : c.current_phase_index < c.phases.length)
    (h4 : c.elapsed_in_phase < c.current_phase.duration) : C5Prop c := by
  have hlen : 0 < c.phases.length := List.length_pos.mpr h1
  by_cases hov : c.emergency_override.isSome
  · have hupd : c.update = c := by
      simp [IntersectionController.update, hov]
    refine ⟨fun ov _ => hupd, ?_, by rw [hupd], by rw [hupd]; exact h3, by rw [hupd]; exact h4⟩
    intro hnone
    rw [hnone] at hov
    simp at hov
  · rw [Option.not_isSome_iff_eq_none] at hov
    have hite : ¬ c.emergency_override.isSome = true := by simp [hov]
    by_cases hreach : c.current_phase.duration ≤ c.elapsed_in_phase + 1
    · have hupd : c.update =
          { c with elapsed_in_phase := 0,
                   current_phase_index := (c.current_phase_index + 1) % c.phases.length } := by
        simp [IntersectionController.update, hite, hreach]
      have hidx : (c.current_phase_index + 1) % c.phases.length < c.phases.length :=
        Nat.mod_lt _ hlen
      have hmem : c.update.current_phase ∈ c.phases := by
        rw [hupd]
        simp only [IntersectionController.current_phase]
        rw [List.getD_eq_getElem _ _ hidx]
        exact List.getElem_mem _
      refine ⟨fun ov hov2 => absurd hov2 (by simp [hov]), ?_, by rw [hupd], ?_, ?_⟩
      · intro _
        constructor
        · intro _
          rw [hupd]
          exact ⟨rfl, rfl⟩
        · intro hlt
          omega
      · rw [hupd]
        exact hidx
      · rw [hupd] at hmem ⊢
        simpa using h2 _ hmem
    · have hupd : c.update = { c with elapsed_in_phase := c.elapsed_in_phase + 1 } := by
        simp [IntersectionController.update, hite, hreach]
      have hsame : c.update.current_phase = c.current_phase := by
        rw [hupd]
        simp [IntersectionController.current_phase]
      refine ⟨fun ov hov2 => absurd hov2 (by simp [hov]), ?_, by rw [hupd], ?_, ?_⟩
      · intro _
        constructor
        · intro heq
          omega
        · intro _
          rw [hupd]
          exact ⟨rfl, rfl⟩
      · rw [hupd]
        exact h3
      · rw [hsame, hupd]
        show c.elapsed_in_phase + 1 < c.current_phase.duration
        omega

/-- C5, witness: one tick on the concrete controller `demoCtrlA`. -/
theorem C5_update_cycles_witness : C5Prop demoCtrlA :=
  C5_update_cycles demoCtrlA (by decide) (by decide) (by decide) (by decide)

end Ctrl

namespace Analyzer

/-- `VehicleData` (shared_data.rs). -/
structure VehicleData where
  id : Nat
  waiting_time : Nat
  accident_timestamp : Option Nat
  severity : Int
  current_lane : String
deriving DecidableEq

/-- `TrafficData` (shared_data.rs): per-snapshot maps, embedded as
association lists (`HashMap`/`HashSet` in the source). -/
structure TrafficData where
  lane_occupancy : List (String × ℚ)
  accident_lanes : List String
  intersection_congestion : List (String × ℚ)
  intersection_waiting_time : List (String × ℚ)
  vehicle_data : List VehicleData
deriving DecidableEq

/-- `CongestionAlert` (shared_data.rs). -/
structure CongestionAlert where
  timestamp : Nat
  intersection : Option String
  message : String
  congestion_perc : ℚ
  recommended_action : String
deriving DecidableEq

/-- Two-decimal rendering of a rational, used only inside the human-readable
alert message (the source formats the f64 with a two-decimal format specifier;
no claim constrains this string). -/
def fmtTwoDec (q : ℚ) : String :=
  let cents : Int := round (q * 100)
  let sign := if cents < 0 then "-" else ""
  let n := cents.natAbs
  sign ++ toString (n / 100) ++ "." ++ (if n % 100 < 10 then "0" else "") ++ toString (n % 100)

/-- The alert message `"Intersection {} is heavily congested ({:.2})"`. -/
def congestion_message (int_id : String) (cong : ℚ) : String :=
  "Intersection " ++ int_id ++ " is heavily congested (" ++ fmtTwoDec cong ++ ")"

/-- The loop body of `analyze_traffic_data` over the congestion map entries:
entries above 0.50 each push one alert, in iteration order. -/
def congestion_alerts_of (ts : Nat) (l : List (String × ℚ)) : List CongestionAlert :=
  l.filterMap fun p =>
    if (1 : ℚ)/2 < p.2 then
      some { timestamp := ts
             intersection := some p.1
             message := congestion_message p.1 p.2
             congestion_perc := p.2
             recommended_action := "Adjust traffic light timings to avoid congestion." }
    else none

/-- `analyze_traffic_data` (c2_tp063881/traffic_analyzer.rs); `ts` stands for
the `current_timestamp()` call. -/
def analyze_traffic_data (ts : Nat) (data : TrafficData) : List CongestionAlert :=
  congestion_alerts_of ts data.intersection_congestion

theorem countP_congestion_alerts (ts : Nat) (l : List (String × ℚ)) (id : String) :
    (congestion_alerts_of ts l).countP (fun a => a.intersection == some id)
      = l.countP (fun p => p.1 == id && decide ((1 : ℚ)/2 < p.2)) := by
  induction l with
  | nil => simp [congestion_alerts_of]
  | cons hd tl ih =>
      rw [congestion_alerts_of, List.filterMap_cons]
      rw [congestion_alerts_of] at ih
      by_cases hc : (1 : ℚ)/2 < hd.2
      · rw [if_pos hc, List.countP_cons, List.countP_cons, ih]
        have e2 : (hd.1 == id && decide ((1 : ℚ)/2 < hd.2)) = (hd.1 == id) := by
          rw [decide_eq_true hc, Bool.and_true]
        simp only [e2]
        by_cases hk : hd.1 = id
        · simp [hk]
        · simp [hk]
      · rw [if_neg hc, List.countP_cons, ih]
        have e2 : (hd.1 == id && decide ((1 : ℚ)/2 < hd.2)) = false := by
          rw [decide_eq_false hc, Bool.and_false]
        simp only [e2]
        simp

theorem countP_fst_eq (l : List (String × ℚ)) (hnd : (l.map Prod.fst).Nodup)
    (id : String) (c : ℚ) (hmem : (id, c) ∈ l) :
    l.countP (fun p => p.1 == id && decide ((1 : ℚ)/2 < p.2))
      = if (1 : ℚ)/2 < c then 1 else 0 := by
  induction l with
  | nil => simp at hmem
  | cons hd tl ih =>
      rw [List.map_cons, List.nodup_cons] at hnd
      obtain ⟨hhd, htl⟩ := hnd
      rw [List.countP_cons]
      rcases List.mem_cons.mp hmem with heq | hmemtl
      · have hz : tl.countP (fun p => p.1 == id && decide ((1 : ℚ)/2 < p.2)) = 0 := by
          rw [List.countP_eq_zero]
          intro p hp
          have hne : p.1 ≠ id := by
            intro h
            apply hhd
            rw [← heq]
            show id ∈ List.map Prod.fst tl
            rw [← h]
            exact List.mem_map_of_mem Prod.fst hp
          simp [hne]
        rw [hz, ← heq]
        by_cases hc : (1 : ℚ)/2 < c
        · rw [if_pos hc]
          have e2 : (((id, c).1 == id) && decide ((1 : ℚ)/2 < (id, c).2)) = true := by
            show ((id == id) && decide ((1 : ℚ)/2 < c)) = true
            rw [decide_eq_true hc, beq_self_eq_true, Bool.and_true]
          simp only [e2]
          simp
        · rw [if_neg hc]
          have e2 : (((id, c).1 == id) && decide ((1 : ℚ)/2 < (id, c).2)) = false := by
            show ((id == id) && decide ((1 : ℚ)/2 < c)) = false
            rw [decide_eq_false hc, Bool.and_false]
          simp only [e2]
          simp
      · have hne : hd.1 ≠ id := by
          intro h
          apply hhd
          rw [h]
          exact List.mem_map_of_mem Prod.fst hmemtl
        rw [ih htl hmemtl]
        simp [hne]

/-- The property verified for C6 on a snapshot whose congestion map has
duplicate-free keys (a `HashMap` guarantee): exactly one alert per entry
strictly above 0.50, no alert for entries at or below 0.50, the alert carrying
that intersection's name and congestion value and the fixed
recommended-action string; and conversely every emitted alert arises that
way. -/
def C6Prop (ts : Nat) (data : TrafficData) : Prop :=
  (∀ id c, (id, c) ∈ data.intersection_congestion →
    ((1 : ℚ)/2 < c →
      (analyze_traffic_data ts data).countP (fun a => a.intersection == some id) = 1 ∧
      ({ timestamp := ts
         intersection := some id
         message := congestion_message id c
         congestion_perc := c
         recommended_action := "Adjust traffic light timings to avoid congestion." }
          : CongestionAlert) ∈ analyze_traffic_data ts data) ∧
    (c ≤ (1 : ℚ)/2 →
      (analyze_traffic_data ts data).countP (fun a => a.intersection == some id) = 0)) ∧
  (∀ a ∈ analyze_traffic_data ts data,
    a.timestamp = ts ∧
    a.recommended_action = "Adjust traffic light timings to avoid congestion." ∧
    ∃ id c, (id, c) ∈ data.intersection_congestion ∧ (1 : ℚ)/2 < c ∧
      a.intersection = some id ∧ a.congestion_perc = c)

/-- C6: congestion analysis emits exactly one alert per intersection whose
congestion exceeds 0.50 and none otherwise, each alert naming its
intersection, carrying its congestion value and the fixed recommended-action
string. -/
theorem C6_congestion_alerts (ts : Nat) (data : TrafficData)
    (hnd : (data.intersection_congestion.map Prod.fst).Nodup) : C6Prop ts data := by
  constructor
  · intro id c hmem
    constructor
    · intro hc
      constructor
      · rw [analyze_traffic_data, countP_congestion_alerts,
           countP_fst_eq _ hnd id c hmem, if_pos hc]
      · rw [analyze_traffic_data, congestion_alerts_of]
        rw [List.mem_filterMap]
        exact ⟨(id, c), hmem, by rw [if_pos hc]⟩
    · intro hc
      rw [analyze_traffic_data, countP_congestion_alerts,
         countP_fst_eq _ hnd id c hmem, if_neg (not_lt.mpr hc)]
  · intro a ha
    rw [analyze_traffic_data, congestion_alerts_of, List.mem_filterMap] at ha
    obtain ⟨p, hp, hpa⟩ := ha
    by_cases hc : (1 : ℚ)/2 < p.2
    · rw [if_pos hc, Option.some.injEq] at hpa
      subst hpa
      exact ⟨rfl, rfl, p.1, p.2, hp, hc, rfl, rfl⟩
    · rw [if_neg hc] at hpa
      exact absurd hpa (by simp)

/-- A concrete snapshot for the C6 witness: intersection `(2,2)` congested at
0.6, intersection `(0,0)` at 0.2. -/
def demoData : TrafficData :=
  ⟨[], [], [("IntersectionId(2, 2)", 3/5), ("IntersectionId(0, 0)", 1/5)], [], []⟩

/-- C6, witness at the concrete snapshot `demoData` and timestamp 111. -/
theorem C6_congestion_alerts_witness : C6Prop 111 demoData :=
  C6_congestion_alerts 111 demoData (by decide)

/-- `HistoricalData` (c2_tp063881/traffic_analyzer.rs): bounded per-key
deques of samples, embedded as association lists. -/
structure HistoricalData where
  capacity : Nat
  occupancy_history : List (String × List ℚ)
  waiting_time_history : List (String × List ℚ)
deriving DecidableEq

/-- `HistoricalData::average_occupancy_for`: the mean of the deque when the
key is present with a non-empty deque, otherwise 0. -/
def HistoricalData.average_occupancy_for (h : HistoricalData) (int_id : String) : ℚ :=
  match h.occupancy_history.lookup int_id with
  | some dq => if dq.isEmpty then 0 else dq.sum / (dq.length : ℚ)
  | none => 0

/-- `HistoricalData::average_waiting_time_for`, same shape. -/
def HistoricalData.average_waiting_time_for (h : HistoricalData) (int_id : String) : ℚ :=
  match h.waiting_time_history.lookup int_id with
  | some dq => if dq.isEmpty then 0 else dq.sum / (dq.length : ℚ)
  | none => 0

/-- `predict_future_traffic_weighted` (c2_tp063881/traffic_analyzer.rs):
per-intersection `alpha·current + (1−alpha)·historical_mean` for congestion
(upper-clamped by `.min(1.0)`) and waiting time (unclamped); the other
snapshot fields are cloned. -/
def predict_future_traffic_weighted (data : TrafficData) (historical : HistoricalData)
    (alpha : ℚ) : TrafficData :=
  { lane_occupancy := data.lane_occupancy
    accident_lanes := data.accident_lanes
    intersection_congestion := data.intersection_congestion.map fun p =>
      (p.1, min (alpha * p.2 + (1 - alpha) * historical.average_occupancy_for p.1) 1)
    intersection_waiting_time := data.intersection_waiting_time.map fun p =>
      (p.1, alpha * p.2 + (1 - alpha) * historical.average_waiting_time_for p.1)
    vehicle_data := data.vehicle_data }

/-- A snapshot with a (physically meaningless but type-correct) negative
current occupancy, exercising the missing lower clamp. -/
def negData : TrafficData := ⟨[], [], [("X", -1)], [], []⟩

/-- Empty history. -/
def emptyHist : HistoricalData := ⟨10, [], []⟩

/-- C7, counterexample: `.min(1.0)` clamps only from above — on a snapshot
with current occupancy −1 and empty history the predicted occupancy is −0.7,
outside `[0, 1]`, so the predicted occupancy is not clamped to `[0, 1]` as
claimed. -/
theorem C7_counterexample_no_lower_clamp :
    (predict_future_traffic_weighted negData emptyHist (7/10)).intersection_congestion
        = [("X", -(7/10))] ∧ ((-(7/10) : ℚ) < 0) := by
  constructor
  · have havg : emptyHist.average_occupancy_for "X" = 0 := rfl
    simp only [predict_future_traffic_weighted, negData, List.map_cons, List.map_nil, havg]
    norm_num
  · norm_num

/-- Occupancy history for intersection X:
`[0.2, 0.4, 0.6, 0.8, 1.0, 0.2, 0.4, 0.6, 0.8, 1.0]` (capacity 10, full). -/
def histX : HistoricalData :=
  ⟨10, [("X", [1/5, 2/5, 3/5, 4/5, 1, 1/5, 2/5, 3/5, 4/5, 1])], []⟩

/-- A snapshot with current occupancy 0.5 at intersection X. -/
def dataX : TrafficData := ⟨[], [], [("X", 1/2)], [], []⟩

/-- The property verified for C7 (amended): the α = 0.7 weighted-prediction
formulae for occupancy and waiting time, the historical mean being the deque
average (0 when absent or empty), the upper clamp at 1, and membership of the
predictions in `[0, 1]` whenever current values and historical means are
nonnegative. -/
def C7Prop (data : TrafficData) (hist : HistoricalData) : Prop :=
  ((predict_future_traffic_weighted data hist (7/10)).intersection_congestion =
      data.intersection_congestion.map fun p =>
        (p.1, min ((7/10) * p.2 + (1 - 7/10) * hist.average_occupancy_for p.1) 1)) ∧
  ((predict_future_traffic_weighted data hist (7/10)).intersection_waiting_time =
      data.intersection_waiting_time.map fun p =>
        (p.1, (7/10) * p.2 + (1 - 7/10) * hist.average_waiting_time_for p.1)) ∧
  (∀ id dq, hist.occupancy_history.lookup id = some dq → dq ≠ [] →
      hist.average_occupancy_for id = dq.sum / (dq.length : ℚ)) ∧
  (∀ id, hist.occupancy_history.lookup id = none →
      hist.average_occupancy_for id = 0) ∧
  (∀ id, hist.occupancy_history.lookup id = some [] →
      hist.average_occupancy_for id = 0) ∧
  (∀ q ∈ (predict_future_traffic_weighted data hist (7/10)).intersection_congestion,
      q.2 ≤ 1) ∧
  ((∀ p ∈ data.intersection_congestion,
      0 ≤ p.2 ∧ 0 ≤ hist.average_occupancy_for p.1) →
    ∀ q ∈ (predict_future_traffic_weighted data hist (7/10)).intersection_congestion,
      0 ≤ q.2 ∧ q.2 ≤ 1)

/-- C7 (amended): the weighted prediction computes
`0.7·current + 0.3·historical_mean` for occupancy and waiting time, with the
mean 0 when the deque is absent or empty; the predicted occupancy is clamped
from above at 1 (there is no lower clamp — see the counterexample), so it lies
in `[0, 1]` whenever the inputs are nonnegative; and on the concrete history
`[0.2, 0.4, 0.6, 0.8, 1.0, 0.2, 0.4, 0.6, 0.8, 1.0]` with current occupancy
0.5 the prediction is 0.53. -/
theorem C7_weighted_prediction_amended (data : TrafficData) (hist : HistoricalData) :
    C7Prop data hist ∧
    (predict_future_traffic_weighted dataX histX (7/10)).intersection_congestion
      = [("X", 53/100)] := by
  constructor
  · refine ⟨rfl, rfl, ?_, ?_, ?_, ?_, ?_⟩
    · intro id dq hdq hne
      simp [HistoricalData.average_occupancy_for, hdq, hne]
    · intro id hdq
      simp [HistoricalData.average_occupancy_for, hdq]
    · intro id hdq
      simp [HistoricalData.average_occupancy_for, hdq]
    · intro q hq
      simp only [predict_future_traffic_weighted, List.mem_map] at hq
      obtain ⟨p, _, hpq⟩ := hq
      rw [← hpq]
      exact min_le_right _ _
    · intro hnn q hq
      simp only [predict_future_traffic_weighted, List.mem_map] at hq
      obtain ⟨p, hp, hpq⟩ := hq
      obtain ⟨hc, ha⟩ := hnn p hp
      rw [← hpq]
      refine ⟨le_min ?_ (by norm_num), min_le_right _ _⟩
      have h1 : 0 ≤ (7/10 : ℚ) * p.2 := by positivity
      have h2 : 0 ≤ (1 - 7/10 : ℚ) * hist.average_occupancy_for p.1 := by
        have : (0:ℚ) ≤ 1 - 7/10 := by norm_num
        exact mul_nonneg this ha
      linarith
  · have havg : histX.average_occupancy_for "X" = 3/5 := by
      simp [histX, HistoricalData.average_occupancy_for, List.lookup]
      norm_num
    simp only [predict_future_traffic_weighted, dataX, List.map_cons, List.map_nil, havg]
    norm_num

/-- C7, witness at the concrete snapshot `dataX` and history `histX`. -/
theorem C7_weighted_prediction_amended_witness :
    C7Prop dataX histX ∧
    (predict_future_traffic_weighted dataX histX (7/10)).intersection_congestion
      = [("X", 53/100)] :=
  C7_weighted_prediction_amended dataX histX

end Analyzer

namespace Routing

open SimEngine (Lane)

/-- The route predicate: `r` is a lane route from `a` to `b` over the lane set
`lanes` when every lane of `r` is drawn from `lanes`, the first lane leaves
`a`, consecutive lanes chain (`lane.to = next.from`), and the chain ends at
`b`; the empty route connects every intersection to itself. -/
def isRoute (lanes : List Lane) : IntersectionId → IntersectionId → List Lane → Prop
  | a, b, [] => a = b
  | a, b, l :: rest => l ∈ lanes ∧ l.from_ = a ∧ isRoute lanes l.to_ b rest

/-- Total length of a route, the sum of its lanes' `length_meters`. -/
def totalLen (r : List Lane) : ℚ :=
  (r.map Lane.length_meters).sum

/-- All routes from `a` to `b` over `lanes` of at most `fuel` lanes
(lanes may repeat; the list enumerates every such route). -/
def routesUpTo (lanes : List Lane) : IntersectionId → IntersectionId → Nat → List (List Lane)
  | a, b, 0 => if a = b then [[]] else []
  | a, b, fuel + 1 =>
      (if a = b then [[]] else []) ++
      (lanes.filter (fun l => l.from_ == a)).flatMap fun l =>
        (routesUpTo lanes l.to_ b fuel).map (l :: ·)

/-- Modelled from the spec: `generate_shortest_lane_route` (spec §4.5 Route
Generation).  The function is imported and called throughout the sources
(`c1_tp063879/simulation.rs`, `simulation_engine/simulation.rs`,
`flow_analyzer/traffic_analyzer.rs`, the benches) but its defining module
`route_generation.rs` with this function is absent from the tree, so it is
modelled from the spec's contract: "compute the minimum-total-length path as
a sequence of lanes via Dijkstra's algorithm, using `lane.length` as edge
weight … Returns absent when unreachable", with ties broken arbitrarily.  The
model returns a route of minimum total length among all routes of at most
`lanes.length` lanes (with nonnegative weights this is a global minimum), and
`none` exactly when no route exists. -/
def generate_shortest_lane_route (lanes : List Lane) (entry exit_ : IntersectionId) :
    Option (List Lane) :=
  (routesUpTo lanes entry exit_ lanes.length).argmin totalLen

theorem isRoute_mem_lanes (lanes : List Lane) (b : IntersectionId) :
    ∀ (r : List Lane) (a : IntersectionId), isRoute lanes a b r → ∀ l ∈ r, l ∈ lanes := by
  intro r
  induction r with
  | nil => intro a _ l hl; simp at hl
  | cons x rest ih =>
      intro a hr l hl
      obtain ⟨hx, _, hrest⟩ := hr
      rcases List.mem_cons.mp hl with heq | hmem
      · rw [heq]; exact hx
      · exact ih x.to_ hrest l hmem

theorem totalLen_nil : totalLen [] = 0 := rfl

theorem totalLen_cons (l : Lane) (r : List Lane) :
    totalLen (l :: r) = l.length_meters + totalLen r := by
  simp [totalLen]

theorem totalLen_append (r s : List Lane) :
    totalLen (r ++ s) = totalLen r + totalLen s := by
  simp [totalLen]

theorem totalLen_nonneg (r : List Lane) (h : ∀ l ∈ r, 0 ≤ l.length_meters) :
    0 ≤ totalLen r := by
  induction r with
  | nil => simp [totalLen]
  | cons l rest ih =>
      rw [totalLen_cons]
      have h1 : 0 ≤ l.length_meters := h l (by simp)
      have h2 : 0 ≤ totalLen rest := ih fun x hx => h x (by simp [hx])
      linarith

theorem routesUpTo_sound (lanes : List Lane) (b : IntersectionId) :
    ∀ (fuel : Nat) (a : IntersectionId) (r : List Lane),
      r ∈ routesUpTo lanes a b fuel → isRoute lanes a b r := by
  intro fuel
  induction fuel with
  | zero =>
      intro a r hr
      rw [routesUpTo] at hr
      by_cases hab : a = b
      · rw [if_pos hab] at hr
        rcases List.mem_singleton.mp hr with rfl
        exact hab
      · rw [if_neg hab] at hr
        simp at hr
  | succ fuel ih =>
      intro a r hr
      rw [routesUpTo] at hr
      rcases List.mem_append.mp hr with hl | hrt
      · by_cases hab : a = b
        · rw [if_pos hab] at hl
          rcases List.mem_singleton.mp hl with rfl
          exact hab
        · rw [if_neg hab] at hl
          simp at hl
      · rcases List.mem_flatMap.mp hrt with ⟨l, hlmem, hrmap⟩
        rcases List.mem_map.mp hrmap with ⟨r', hr', rfl⟩
        obtain ⟨hlanes, hfrom⟩ := List.mem_filter.mp hlmem
        exact ⟨hlanes, by simpa using hfrom, ih l.to_ r' hr'⟩

theorem routesUpTo_complete (lanes : List Lane) (b : IntersectionId) :
    ∀ (r : List Lane) (a : IntersectionId) (fuel : Nat),
      isRoute lanes a b r → r.length ≤ fuel → r ∈ routesUpTo lanes a b fuel := by
  intro r
  induction r with
  | nil =>
      intro a fuel hr _
      have hab : a = b := hr
      cases fuel with
      | zero => rw [routesUpTo, if_pos hab]; simp
      | succ n =>
          rw [routesUpTo, if_pos hab]
          simp
  | cons l rest ih =>
      intro a fuel hr hlen
      obtain ⟨hlanes, hfrom, hrest⟩ := hr
      cases fuel with
      | zero => simp at hlen
      | succ n =>
          rw [routesUpTo]
          apply List.mem_append.mpr
          right
          apply List.mem_flatMap.mpr
          refine ⟨l, List.mem_filter.mpr ⟨hlanes, by simpa using hfrom⟩, ?_⟩
          apply List.mem_map.mpr
          refine ⟨rest, ih l.to_ n hrest ?_, rfl⟩
          simpa using hlen

theorem not_nodup_split {α : Type} :
    ∀ (l : List α), ¬ l.Nodup → ∃ s x t, l = s ++ x :: t ∧ x ∈ t := by
  intro l
  induction l with
  | nil => intro h; exact absurd List.nodup_nil h
  | cons y rest ih =>
      intro h
      by_cases hy : y ∈ rest
      · exact ⟨[], y, rest, rfl, hy⟩
      · have hrest : ¬ rest.Nodup := by
          intro hnd
          exact h (List.nodup_cons.mpr ⟨hy, hnd⟩)
        obtain ⟨s, x, t, heq, hxt⟩ := ih hrest
        exact ⟨y :: s, x, t, by rw [heq]; rfl, hxt⟩

theorem isRoute_append (lanes : List Lane) (b : IntersectionId) :
    ∀ (r1 r2 : List Lane) (a : IntersectionId),
      isRoute lanes a b (r1 ++ r2) ↔ ∃ m, isRoute lanes a m r1 ∧ isRoute lanes m b r2 := by
  intro r1
  induction r1 with
  | nil =>
      intro r2 a
      constructor
      · intro h
        exact ⟨a, rfl, h⟩
      · rintro ⟨m, hm, h2⟩
        have ham : a = m := hm
        exact ham ▸ h2
  | cons l r1' ih =>
      intro r2 a
      constructor
      · rintro ⟨hl, hf, hrest⟩
        obtain ⟨m, h1, h2⟩ := (ih r2 l.to_).mp hrest
        exact ⟨m, ⟨hl, hf, h1⟩, h2⟩
      · rintro ⟨m, ⟨hl, hf, h1⟩, h2⟩
        exact ⟨hl, hf, (ih r2 l.to_).mpr ⟨m, h1, h2⟩⟩

theorem exists_short_route (lanes : List Lane) (a b : IntersectionId)
    (hnn : ∀ l ∈ lanes, 0 ≤ l.length_meters) :
    ∀ (n : Nat) (r : List Lane), r.length ≤ n → isRoute lanes a b r →
      ∃ r', isRoute lanes a b r' ∧ r'.length ≤ lanes.length ∧
        totalLen r' ≤ totalLen r := by
  intro n
  induction n with
  | zero =>
      intro r hlen hr
      have hnil : r = [] := List.eq_nil_of_length_eq_zero (Nat.le_zero.mp hlen)
      subst hnil
      exact ⟨[], hr, by simp, le_refl _⟩
  | succ n ih =>
      intro r hlen hr
      by_cases hsmall : r.length ≤ lanes.length
      · exact ⟨r, hr, hsmall, le_refl _⟩
      · have hsub : ∀ l ∈ r, l ∈ lanes := isRoute_mem_lanes lanes b r a hr
        have hnd : ¬ r.Nodup := by
          intro hnd
          have hsp : List.Subperm r lanes := List.subperm_of_subset hnd hsub
          exact hsmall hsp.length_le
        obtain ⟨s, x, t, hrsplit, hxt⟩ := not_nodup_split r hnd
        obtain ⟨u, v, htsplit⟩ := List.append_of_mem hxt
        subst htsplit
        subst hrsplit
        obtain ⟨m, hs, hx⟩ := (isRoute_append lanes b s (x :: (u ++ x :: v)) a).mp hr
        obtain ⟨hxl, hxf, hxrest⟩ := hx
        obtain ⟨m2, hu, hx2⟩ := (isRoute_append lanes b u (x :: v) x.to_).mp hxrest
        obtain ⟨_, _, hv⟩ := hx2
        have hr1 : isRoute lanes a b (s ++ x :: v) :=
          (isRoute_append lanes b s (x :: v) a).mpr ⟨m, hs, hxl, hxf, hv⟩
        have hlen2 : (s ++ x :: v).length ≤ n := by
          simp only [List.length_append, List.length_cons] at hlen ⊢
          omega
        obtain ⟨r2, hr2, hr2len, hr2tl⟩ := ih (s ++ x :: v) hlen2 hr1
        refine ⟨r2, hr2, hr2len, le_trans hr2tl ?_⟩
        have hunn : 0 ≤ totalLen u :=
          totalLen_nonneg u fun l hl => hnn l (hsub l (by simp [hl]))
        have hxnn : 0 ≤ x.length_meters := hnn x (hsub x (by simp))
        rw [totalLen_append, totalLen_append, totalLen_cons, totalLen_cons,
           totalLen_append, totalLen_cons]
        linarith

/-- The property verified for C9: any returned route is a route from entry to
exit of total length no greater than that of any other route over the same
lane set, and the result is absent exactly when no route exists. -/
def C9Prop (lanes : List Lane) (entry exit_ : IntersectionId) : Prop :=
  (∀ r, generate_shortest_lane_route lanes entry exit_ = some r →
      isRoute lanes entry exit_ r ∧
      ∀ r', isRoute lanes entry exit_ r' → totalLen r ≤ totalLen r') ∧
  (generate_shortest_lane_route lanes entry exit_ = none ↔
      ¬ ∃ r, isRoute lanes entry exit_ r)

/-- C9 (spec-modelled): for every lane set with nonnegative lane lengths and
every (entry, exit) pair, route generation returns a lane route of minimum
total length (with `lane.length` as edge weight), and returns absent exactly
when the exit is unreachable from the entry over the given lane set. -/
theorem C9_shortest_route (lanes : List Lane) (entry exit_ : IntersectionId)
    (hnn : ∀ l ∈ lanes, 0 ≤ l.length_meters) : C9Prop lanes entry exit_ := by
  constructor
  · intro r hsome
    have hargmin : r ∈ (routesUpTo lanes entry exit_ lanes.length).argmin totalLen :=
      Option.mem_def.mpr hsome
    have hmem : r ∈ routesUpTo lanes entry exit_ lanes.length :=
      List.argmin_mem hargmin
    refine ⟨routesUpTo_sound lanes exit_ lanes.length entry r hmem, ?_⟩
    intro r' hr'
    obtain ⟨r2, hr2route, hr2len, hr2tl⟩ :=
      exists_short_route lanes entry exit_ hnn r'.length r' (le_refl _) hr'
    have hmem2 : r2 ∈ routesUpTo lanes entry exit_ lanes.length :=
      routesUpTo_complete lanes exit_ r2 entry lanes.length hr2route hr2len
    exact le_trans (List.le_of_mem_argmin hmem2 hargmin) hr2tl
  · rw [generate_shortest_lane_route, List.argmin_eq_none]
    constructor
    · rintro hempty ⟨r', hr'⟩
      obtain ⟨r2, hr2route, hr2len, _⟩ :=
        exists_short_route lanes entry exit_ hnn r'.length r' (le_refl _) hr'
      have hmem2 : r2 ∈ routesUpTo lanes entry exit_ lanes.length :=
        routesUpTo_complete lanes exit_ r2 entry lanes.length hr2route hr2len
      rw [hempty] at hmem2
      simp at hmem2
    · intro hno
      by_contra hne
      obtain ⟨x, hx⟩ := List.exists_mem_of_ne_nil _ hne
      exact hno ⟨x, routesUpTo_sound lanes exit_ lanes.length entry x hx⟩

/-- Three lanes of `create_lanes` along row 0, for the C9 witness. -/
def demoLanes : List Lane :=
  [SimEngine.Lane.new "(0,0) -> (0,1)" ⟨0, 0⟩ ⟨0, 1⟩ 300,
   SimEngine.Lane.new "(0,1) -> (0,2)" ⟨0, 1⟩ ⟨0, 2⟩ 200,
   SimEngine.Lane.new "(0,2) -> (0,3)" ⟨0, 2⟩ ⟨0, 3⟩ 400]

/-- C9, witness at concrete input: the row-0 lanes, entry `(0,0)`,
exit `(0,2)`. -/
theorem C9_shortest_route_witness : C9Prop demoLanes ⟨0, 0⟩ ⟨0, 2⟩ :=
  C9_shortest_route demoLanes ⟨0, 0⟩ ⟨0, 2⟩ (by decide)

end Routing

end Rts
